import Mathlib

/-!
Verification of the stream-connection layer (src/lib/utils.ts).

The source is embedded shallowly: each connection object becomes a state
record, each method and each transport event becomes a pure function on that
record, and host-side effects (opening a socket, sending, issuing a fetch,
invoking the message handler, logging, aborting) are recorded in an explicit
effect trace.  Timers scheduled with setTimeout become entries of an explicit
pending list; firing a timer is a separate step function, so the interleaving
of close() with an already-scheduled reconnect can be analysed.  Host
primitives (the WebSocket readyState, the fetch response, JSON.parse) are
modelled as explicit inputs.
-/

/-- Connection health, from the WellKnownHealth union type in the source. -/
inductive Health
  | connecting
  | connected
  | closed
  | error
  deriving DecidableEq, Repr

/-- Native WebSocket readyState values (CONNECTING, OPEN, CLOSING, CLOSED). -/
inductive ReadyState
  | CONNECTING
  | OPEN
  | CLOSING
  | CLOSED
  deriving DecidableEq, Repr

/-- Host-visible effects performed by the connection layer. -/
inductive Eff
  | newWS (url : String)
  | wsSendData (data : String)
  | wsCloseHandle
  | handlerCall (data : String)
  | fetchReq (payload : String)
  | abortReq
  | logMsg
  deriving DecidableEq, Repr

/-- Errors thrown by the layer, under the names the design gives them:
notConnected for the send-while-not-connected throw, missingPayload for the
payload check in SSE connect, badResponse for a failed fetch response, and
malformedChunk for a chunk the transformer cannot parse. -/
inductive ConnErr
  | notConnected
  | missingPayload
  | badResponse (status : Nat)
  | malformedChunk
  deriving DecidableEq, Repr

/-- Config of WebSocketConnection: maxRetries and backoffInMs. -/
structure WSConfig where
  maxRetries : Nat
  backoffInMs : Nat
  deriving DecidableEq, Repr

/-- Instance fields of WebSocketConnection.  The ws field is the transport
handle, represented by its readyState (none when the field is null); health
is the cached private field that only send() writes. -/
structure WSConn where
  url : String
  ws : Option ReadyState
  retriesDone : Nat
  shouldRetry : Bool
  health : Health
  config : WSConfig
  deriving DecidableEq, Repr

/-- A freshly constructed WebSocketConnection with an explicit config. -/
def wsFreshCfg (url : String) (maxRetries backoffInMs : Nat) : WSConn :=
  ⟨url, none, 0, true, .closed, ⟨maxRetries, backoffInMs⟩⟩

/-- A freshly constructed WebSocketConnection with the default config
(maxRetries 3, backoffInMs 1000). -/
def wsFresh (url : String) : WSConn := wsFreshCfg url 3 1000

/-- The connection together with its event-loop context: the pending
setTimeout entries (each holds its delay; the only callback ever scheduled is
the reconnect) and the trace of effects performed so far. -/
structure WSSys where
  conn : WSConn
  pending : List Nat
  trace : List Eff
  deriving DecidableEq, Repr

/-- A fresh system: the connection, no pending timers, empty trace. -/
def mkWSSys (c : WSConn) : WSSys := ⟨c, [], []⟩

/-- WebSocketConnection.getHealth: switch on this.ws.readyState
(CONNECTING, OPEN, CLOSED, default) when ws is non-null, else closed. -/
def wsGetHealth (c : WSConn) : Health :=
  match c.ws with
  | some .CONNECTING => .connecting
  | some .OPEN => .connected
  | some .CLOSED => .closed
  | some .CLOSING => .error
  | none => .closed

/-- WebSocketConnection.connect: return immediately when the socket is
already OPEN; otherwise create a new WebSocket (which starts in CONNECTING)
and install the handlers. -/
def wsConnect (s : WSSys) : WSSys :=
  if s.conn.ws = some .OPEN then s
  else
    { s with
      conn := { s.conn with ws := some .CONNECTING },
      trace := s.trace ++ [.newWS s.conn.url] }

/-- The installed onopen handler: log and reset retriesDone to 0; the socket
itself has moved to OPEN. -/
def wsOpenEvent (s : WSSys) : WSSys :=
  match s.conn.ws with
  | some .CONNECTING =>
    { s with
      conn := { s.conn with ws := some .OPEN, retriesDone := 0 },
      trace := s.trace ++ [.logMsg] }
  | _ => s

/-- The installed onmessage handler: forward event.data to the single
registered message handler.  Message events only occur on an OPEN socket. -/
def wsMessageEvent (s : WSSys) (data : String) : WSSys :=
  match s.conn.ws with
  | some .OPEN => { s with trace := s.trace ++ [.handlerCall data] }
  | _ => s

/-- The installed onclose handler, run when the socket drops (its readyState
is then CLOSED).  If shouldRetry and retriesDone < maxRetries, schedule the
reconnect callback after retriesDone * backoffInMs; otherwise clear the
handle and log that the re-connect limit was reached. -/
def wsDropEvent (s : WSSys) : WSSys :=
  match s.conn.ws with
  | none => s
  | some _ =>
    if s.conn.shouldRetry = true ∧ s.conn.retriesDone < s.conn.config.maxRetries then
      { s with
        conn := { s.conn with ws := some .CLOSED },
        pending := s.pending ++ [s.conn.retriesDone * s.conn.config.backoffInMs] }
    else
      { s with
        conn := { s.conn with ws := none },
        trace := s.trace ++ [.logMsg] }

/-- Fire the next pending timer.  The scheduled callback is always the
reconnect closure from onclose: it increments retriesDone and calls
connect(), unconditionally — it does not consult shouldRetry. -/
def wsFireNext (s : WSSys) : WSSys :=
  match s.pending with
  | [] => s
  | _ :: rest =>
    wsConnect
      { s with
        pending := rest,
        conn := { s.conn with retriesDone := s.conn.retriesDone + 1 } }

/-- WebSocketConnection.send: refresh the cached health from getHealth, then
send over the socket when it is non-null and the health is connected,
otherwise throw the not-connected error. -/
def wsSendCall (s : WSSys) (data : String) : WSSys × Except ConnErr Unit :=
  if s.conn.ws.isSome = true ∧ wsGetHealth s.conn = .connected then
    ({ s with
        conn := { s.conn with health := wsGetHealth s.conn },
        trace := s.trace ++ [.wsSendData data] }, .ok ())
  else
    ({ s with conn := { s.conn with health := wsGetHealth s.conn } },
      .error .notConnected)

/-- WebSocketConnection.close: when a socket is open, set shouldRetry false,
close the native socket, detach its callbacks and null the field; when no
socket is open, only log.  Pending timers are left untouched (the source
keeps no handle to the setTimeout). -/
def wsCloseCall (s : WSSys) : WSSys :=
  match s.conn.ws with
  | some _ =>
    { s with
      conn := { s.conn with shouldRetry := false, ws := none },
      trace := s.trace ++ [.wsCloseHandle] }
  | none => { s with trace := s.trace ++ [.logMsg] }

/-- One consecutive unexpected drop: the in-flight socket drops (onclose
runs) and the scheduled reconnect timer, if any, then fires. -/
def wsCycle (s : WSSys) : WSSys := wsFireNext (wsDropEvent s)

/-- k consecutive unexpected drops. -/
def wsCycles : Nat → WSSys → WSSys
  | 0, s => s
  | k + 1, s => wsCycle (wsCycles k s)

/-- A burst of message events delivered by the transport, in order. -/
def wsProcessMessages (s : WSSys) : List String → WSSys
  | [] => s
  | m :: rest => wsProcessMessages (wsMessageEvent s m) rest

/-- Config of SSEConnection: maxBackoff and backoff. -/
structure SSEConfig where
  maxBackoff : Nat
  backoff : Nat
  deriving DecidableEq, Repr

/-- Instance fields of SSEConnection.  abortController is true exactly when
the field is non-null. -/
structure SSEConn where
  url : String
  abortController : Bool
  retriesDone : Nat
  shouldRetry : Bool
  health : Health
  config : SSEConfig
  deriving DecidableEq, Repr

/-- A freshly constructed SSEConnection with the default config
(maxBackoff 30000, backoff 1000). -/
def sseFresh (url : String) : SSEConn :=
  ⟨url, false, 0, true, .closed, ⟨30000, 1000⟩⟩

/-- SSEConnection.getHealth: returns the health field. -/
def sseGetHealth (c : SSEConn) : Health := c.health

/-- The fetch response the host delivers: ok flag, status, and the body as
the list of already-decoded text chunks the reader will produce before done
(none models a null body). -/
structure FetchResponse where
  ok : Bool
  status : Nat
  body : Option (List String)
  deriving DecidableEq, Repr

/-- JS truthiness of the optional payload argument: undefined and the empty
string are falsy. -/
def jsTruthy : Option String → Bool
  | none => false
  | some s => !(s == "")

instance {ε α : Type} [DecidableEq ε] [DecidableEq α] : DecidableEq (Except ε α) :=
  fun a b => by
    cases a with
    | ok x =>
      cases b with
      | ok y =>
        exact if h : x = y then isTrue (by rw [h])
          else isFalse (fun hc => h (Except.ok.inj hc))
      | error y => exact isFalse (fun hc => Except.noConfusion hc)
    | error x =>
      cases b with
      | ok y => exact isFalse (fun hc => Except.noConfusion hc)
      | error y =>
        exact if h : x = y then isTrue (by rw [h])
          else isFalse (fun hc => h (Except.error.inj hc))

/-- Result of one SSEConnection.connect call: the updated connection, the
effects performed, the outcome of the awaited promise, and the reconnect the
call scheduled with setTimeout, if any (delay and the payload the scheduled
connect will be called with). -/
structure SSEOutcome where
  conn : SSEConn
  effs : List Eff
  result : Except ConnErr Unit
  scheduled : Option (Nat × String)
  deriving DecidableEq, Repr

/-- SSEConnection.retry: increment retriesDone, compute the capped delay
min(retriesDone * backoff, maxBackoff), and hand back the delay and payload
for the setTimeout that re-runs connect. -/
def sseRetry (c : SSEConn) (payload : String) : SSEConn × Nat × String :=
  let r := c.retriesDone + 1
  let delay := min (r * c.config.backoff) c.config.maxBackoff
  ({ c with retriesDone := r }, delay, payload)

/-- SSEConnection.connect: throw when the payload is falsy (after setting
health to error); otherwise reset retriesDone to 0, set health connecting,
allocate the abort controller, and issue the fetch.  A not-ok response or a
missing body sets health to error and throws.  Otherwise health becomes
connected, the read loop forwards every chunk of the body to the handler in
order, health becomes closed when the body ends, and when shouldRetry still
holds the retry is scheduled with the same payload. -/
def sseConnect (c : SSEConn) (payload : Option String) (resp : FetchResponse) :
    SSEOutcome :=
  if jsTruthy payload = false then
    { conn := { c with health := .error }, effs := [],
      result := .error .missingPayload, scheduled := none }
  else
    let p := payload.getD ""
    let cConn : SSEConn :=
      { c with retriesDone := 0, health := .connecting, abortController := true }
    if resp.ok = false ∨ resp.body = none then
      { conn := { cConn with health := .error }, effs := [.fetchReq p],
        result := .error (.badResponse resp.status), scheduled := none }
    else
      let chunkEffs := (resp.body.getD []).map Eff.handlerCall
      let cLive : SSEConn := { cConn with health := .connected }
      let cEnd : SSEConn := { cLive with health := .closed }
      if cEnd.shouldRetry = true then
        let r := sseRetry cEnd p
        { conn := r.1, effs := .fetchReq p :: chunkEffs,
          result := .ok (), scheduled := some r.2 }
      else
        { conn := cEnd, effs := .fetchReq p :: chunkEffs,
          result := .ok (), scheduled := none }

/-- SSEConnection.close: set shouldRetry false and health closed, abort the
in-flight request when a controller exists, and null the controller. -/
def sseClose (c : SSEConn) : SSEConn × List Eff :=
  let effs := if c.abortController then [Eff.abortReq] else []
  ({ c with shouldRetry := false, health := .closed, abortController := false },
    effs)

/-- The two transport variants behind the StreamConnection interface. -/
inductive StreamConn
  | ws (c : WSConn)
  | sse (c : SSEConn)
  deriving DecidableEq, Repr

/-- newConnection: construct the WebSocket variant when the tag equals
the string websocket, otherwise the SSE variant.  Construction only assigns
fields; the return type has no effect channel, matching that no I/O happens
before connect(). -/
def newConnection (type : String) (url : String) : StreamConn :=
  if type == "websocket" then .ws (wsFresh url) else .sse (sseFresh url)

/-- eatWith: the chunk transformer.  JSON.parse is a host primitive and is
taken as the parse input; a parse failure is a thrown error, modelled by the
Except error channel, and the source does not catch it. -/
def eatWith {α T : Type} (parse : String → Except ConnErr α) (getter : α → T) :
    String → Except ConnErr T :=
  fun raw =>
    match parse raw with
    | .ok response => .ok (getter response)
    | .error e => .error e

/-- The chunks forwarded to the message handler, read off an effect trace. -/
def handlerCalls (effs : List Eff) : List String :=
  effs.filterMap fun e =>
    match e with
    | .handlerCall d => some d
    | _ => none

/-- Claim C4: send(data) on the duplex connection fails with NotConnectedError
for every state in which getHealth() is not connected (including a freshly
constructed, never-connected instance), forwarding nothing and queueing
nothing (the trace is unchanged and the state holds no buffer); when
getHealth() is connected the data is forwarded to the underlying socket. -/
theorem ws_send_not_connected (s : WSSys) (d : String) :
    (wsGetHealth s.conn ≠ .connected →
      (wsSendCall s d).2 = .error .notConnected ∧ (wsSendCall s d).1.trace = s.trace) ∧
    (wsGetHealth s.conn = .connected →
      (wsSendCall s d).2 = .ok () ∧
        (wsSendCall s d).1.trace = s.trace ++ [.wsSendData d]) := by
  constructor
  · intro h
    have hc : ¬ (s.conn.ws.isSome = true ∧ wsGetHealth s.conn = .connected) :=
      fun hand => h hand.2
    unfold wsSendCall
    rw [if_neg hc]
    exact ⟨rfl, rfl⟩
  · intro h
    have hsome : s.conn.ws.isSome = true := by
      cases hw : s.conn.ws with
      | none => simp [wsGetHealth, hw] at h
      | some r => simp [hw]
    unfold wsSendCall
    rw [if_pos ⟨hsome, h⟩]
    exact ⟨rfl, rfl⟩

/-- Witness for claim C4 at concrete inputs: a never-connected duplex
connection rejects send, and an OPEN one forwards it. -/
theorem ws_send_not_connected_witness :
    (wsSendCall (mkWSSys (wsFresh "u")) "x").2 = .error .notConnected ∧
    (wsSendCall ⟨⟨"u", some .OPEN, 0, true, .closed, ⟨3, 1000⟩⟩, [], []⟩ "y").2 =
      .ok () := by
  refine ⟨((ws_send_not_connected (mkWSSys (wsFresh "u")) "x").1 (by decide)).1,
    ((ws_send_not_connected
      ⟨⟨"u", some .OPEN, 0, true, .closed, ⟨3, 1000⟩⟩, [], []⟩ "y").2 rfl).1⟩

/-- Claim C5: push-stream connect() with no payload fails with
MissingPayloadError and performs no network I/O: the effect list is empty, so
no fetch request is issued before the error is raised, and no retry is
scheduled. -/
theorem sse_connect_missing_payload (c : SSEConn) (resp : FetchResponse) :
    (sseConnect c none resp).result = .error .missingPayload ∧
    (sseConnect c none resp).effs = [] ∧
    (sseConnect c none resp).scheduled = none :=
  ⟨rfl, rfl, rfl⟩

/-- Claim C10: push-stream connect() with no payload sets health to error
before throwing, so getHealth() afterwards returns error rather than closed,
whatever the prior state was. -/
theorem sse_missing_payload_health (c : SSEConn) (resp : FetchResponse) :
    sseGetHealth (sseConnect c none resp).conn = .error ∧
    (sseConnect c none resp).result = .error .missingPayload :=
  ⟨rfl, rfl⟩

/-- Claim C9: for every extractor and every raw chunk, the transformer
returned by eatWith parses the chunk and returns the extractor applied to the
parse result; when parsing fails the failure propagates unchanged to the
invoker — it is never swallowed. -/
theorem eatWith_propagates {α T : Type} (parse : String → Except ConnErr α)
    (getter : α → T) (s : String) :
    (∀ v, parse s = .ok v → eatWith parse getter s = .ok (getter v)) ∧
    (∀ e, parse s = .error e → eatWith parse getter s = .error e) := by
  constructor
  · intro v hv
    unfold eatWith
    rw [hv]
  · intro e he
    unfold eatWith
    rw [he]

/-- Witness for claim C9 with a concrete parse function: a chunk that parses
is transformed, and a malformed chunk surfaces the MalformedChunkError. -/
theorem eatWith_propagates_witness :
    eatWith (fun s => if s == "1" then Except.ok 1 else Except.error .malformedChunk)
        (fun n => n + 1) "1" = .ok 2 ∧
    eatWith (fun s => if s == "1" then Except.ok 1 else Except.error .malformedChunk)
        (fun n => n + 1) "x" = .error .malformedChunk := by
  refine ⟨(eatWith_propagates _ _ "1").1 1 (by rfl),
    (eatWith_propagates _ _ "x").2 .malformedChunk (by rfl)⟩

/-- Claim C1 (the code contradicts it): after an unexpected drop schedules a
reconnect, close() nulls the handle and sets shouldRetry to false, but the
pending timer survives, and when it fires its callback increments retriesDone
and runs connect() without consulting shouldRetry — a new WebSocket handle is
opened after close(), visible as a second newWS effect in the trace. -/
theorem ws_pending_retry_fires_after_close :
    (wsCloseCall (wsDropEvent (wsConnect (mkWSSys (wsFresh "u"))))).conn.ws = none ∧
    (wsCloseCall (wsDropEvent (wsConnect (mkWSSys (wsFresh "u"))))).conn.shouldRetry
      = false ∧
    (wsCloseCall (wsDropEvent (wsConnect (mkWSSys (wsFresh "u"))))).pending = [0] ∧
    (wsFireNext (wsCloseCall (wsDropEvent (wsConnect
      (mkWSSys (wsFresh "u")))))).conn.ws = some .CONNECTING ∧
    (wsFireNext (wsCloseCall (wsDropEvent (wsConnect
      (mkWSSys (wsFresh "u")))))).trace =
      [.newWS "u", .wsCloseHandle, .newWS "u"] :=
  ⟨rfl, rfl, rfl, rfl, rfl⟩

/-- Claim C2 counterexample: with maxRetries = 1, after exactly 1 consecutive
unexpected drop a further reconnect IS scheduled — the pending list is
non-empty and firing it opens a second WebSocket — so the connection does not
stop after N drops. -/
theorem ws_maxretries_drop_counterexample :
    (wsDropEvent (wsConnect (mkWSSys (wsFreshCfg "u" 1 1000)))).pending = [0] ∧
    (wsFireNext (wsDropEvent (wsConnect (mkWSSys (wsFreshCfg "u" 1 1000))))).conn.ws
      = some .CONNECTING ∧
    (wsFireNext (wsDropEvent (wsConnect (mkWSSys (wsFreshCfg "u" 1 1000))))).trace
      = [.newWS "u", .newWS "u"] :=
  ⟨rfl, rfl, rfl⟩

/-- Invariant of the consecutive-drop loop: while k retries of maxRetries N
remain available, after k drop-and-retry rounds the connection holds a fresh
in-flight socket, retriesDone equals k, shouldRetry still holds and no timer
is pending. -/
theorem wsCycles_invariant (N b : Nat) (url : String) :
    ∀ k, k ≤ N → ∃ t,
      wsCycles k (wsConnect (mkWSSys (wsFreshCfg url N b))) =
        ⟨⟨url, some .CONNECTING, k, true, .closed, ⟨N, b⟩⟩, [], t⟩ := by
  intro k
  induction k with
  | zero =>
    intro _
    exact ⟨[Eff.newWS url], rfl⟩
  | succ k ih =>
    intro hk
    obtain ⟨t, ht⟩ := ih (Nat.le_of_succ_le hk)
    have hkN : k < N := Nat.lt_of_succ_le hk
    refine ⟨t ++ [Eff.newWS url], ?_⟩
    show wsCycle (wsCycles k (wsConnect (mkWSSys (wsFreshCfg url N b)))) = _
    rw [ht]
    simp [wsCycle, wsDropEvent, wsFireNext, wsConnect, hkN]

/-- Claim C2 (amended): for every maxRetries N, after N + 1 consecutive
unexpected drops (the drop at which retriesDone has reached N) the duplex
connection schedules no further reconnects — the pending list is empty and a
further drop round changes nothing — the transport handle is cleared, the
terminal state is reported through the log effect (the step functions are
total, nothing is thrown), and getHealth settles to closed. -/
theorem ws_retry_exhaustion_after_maxretries (N b : Nat) (url : String) :
    (wsCycles (N + 1) (wsConnect (mkWSSys (wsFreshCfg url N b)))).conn.ws = none ∧
    (wsCycles (N + 1) (wsConnect (mkWSSys (wsFreshCfg url N b)))).pending = [] ∧
    wsGetHealth (wsCycles (N + 1) (wsConnect (mkWSSys (wsFreshCfg url N b)))).conn
      = .closed ∧
    Eff.logMsg ∈ (wsCycles (N + 1) (wsConnect (mkWSSys (wsFreshCfg url N b)))).trace ∧
    wsCycle (wsCycles (N + 1) (wsConnect (mkWSSys (wsFreshCfg url N b)))) =
      wsCycles (N + 1) (wsConnect (mkWSSys (wsFreshCfg url N b))) := by
  obtain ⟨t, ht⟩ := wsCycles_invariant N b url N (Nat.le_refl N)
  have hstep : wsCycles (N + 1) (wsConnect (mkWSSys (wsFreshCfg url N b))) =
      ⟨⟨url, none, N, true, .closed, ⟨N, b⟩⟩, [], t ++ [Eff.logMsg]⟩ := by
    show wsCycle (wsCycles N (wsConnect (mkWSSys (wsFreshCfg url N b)))) = _
    rw [ht]
    simp [wsCycle, wsDropEvent, wsFireNext]
  rw [hstep]
  refine ⟨rfl, rfl, rfl, ?_, rfl⟩
  simp

/-- Claim C3 counterexample: run two consecutive normal ends of the body with
retries on.  The second retry is scheduled after 1000 ms, not after
min(2 * 1000, 30000) = 2000 ms as the claim's incrementing counter demands,
because connect() resets retriesDone to 0 before the retry increments it. -/
theorem sse_backoff_counterexample :
    (sseConnect (sseConnect (sseFresh "u") (some "p")
        ⟨true, 200, some ["A"]⟩).conn (some "p") ⟨true, 200, some ["A"]⟩).scheduled
      = some (1000, "p") ∧
    some ((1000 : Nat), "p") ≠ some (min (2 * 1000) 30000, "p") := by
  exact ⟨rfl, by decide⟩

/-- Claim C3 (amended): every normal end of the response body with
shouldRetry true schedules a fresh connect with the same original payload,
but since connect() resets retriesDone to 0 on entry the counter at
scheduling time is always 1, so the delay of every such retry is the constant
min(backoffStepMs, maxBackoffMs) — trivially non-decreasing across
consecutive retries and never exceeding the cap. -/
theorem sse_retry_constant_delay (c : SSEConn) (p : String) (resp : FetchResponse)
    (hp : (p == "") = false) (hok : resp.ok = true) (hb : resp.body.isSome = true)
    (hr : c.shouldRetry = true) :
    (sseConnect c (some p) resp).scheduled =
      some (min c.config.backoff c.config.maxBackoff, p) ∧
    (sseConnect c (some p) resp).conn.retriesDone = 1 ∧
    min c.config.backoff c.config.maxBackoff ≤ c.config.maxBackoff := by
  have hjt : ¬ (jsTruthy (some p) = false) := by simp [jsTruthy, hp]
  obtain ⟨cs, hcs⟩ := Option.isSome_iff_exists.mp hb
  have hbad : ¬ (resp.ok = false ∨ resp.body = none) := by simp [hok, hcs]
  refine ⟨?_, ?_, min_le_right _ _⟩ <;>
    simp [sseConnect, hjt, hbad, sseRetry, hr]

/-- Witness for the amended claim C3 at a concrete run: with the default
config the scheduled retry carries the same payload after min(1000, 30000). -/
theorem sse_retry_constant_delay_witness :
    (sseConnect (sseFresh "u") (some "p") ⟨true, 200, some ["A"]⟩).scheduled =
      some (min 1000 30000, "p") :=
  (sse_retry_constant_delay (sseFresh "u") "p" ⟨true, 200, some ["A"]⟩
    rfl rfl rfl rfl).1

/-- Reading the handler calls back off a pure burst of forwarded chunks
recovers exactly those chunks. -/
theorem handlerCalls_map (cs : List String) :
    handlerCalls (List.map Eff.handlerCall cs) = cs := by
  induction cs with
  | nil => rfl
  | cons a t ih =>
    show a :: handlerCalls (List.map Eff.handlerCall t) = a :: t
    rw [ih]

/-- Delivering a burst of message events on an OPEN duplex socket appends
exactly one handler call per message, in arrival order. -/
theorem wsProcessMessages_trace (ms : List String) :
    ∀ s : WSSys, s.conn.ws = some .OPEN →
      (wsProcessMessages s ms).trace = s.trace ++ ms.map Eff.handlerCall := by
  induction ms with
  | nil =>
    intro s _
    simp [wsProcessMessages]
  | cons m rest ih =>
    intro s hw
    have h1 : wsMessageEvent s m = { s with trace := s.trace ++ [Eff.handlerCall m] } := by
      simp [wsMessageEvent, hw]
    show (wsProcessMessages (wsMessageEvent s m) rest).trace = _
    rw [h1, ih { s with trace := s.trace ++ [Eff.handlerCall m] } hw]
    simp

/-- Claim C6: for any sequence of chunks produced by the transport while the
connection is live, the handler receives exactly that sequence in order — on
the push stream the handler calls of a connect run are precisely the body
chunks, and on the duplex socket each message event forwards its data
verbatim, appending one handler call per chunk. -/
theorem chunk_delivery_order (c : SSEConn) (p : String) (resp : FetchResponse)
    (cs : List String) (s : WSSys) (ms : List String)
    (hp : (p == "") = false) (hok : resp.ok = true) (hb : resp.body = some cs)
    (hw : s.conn.ws = some .OPEN) :
    handlerCalls (sseConnect c (some p) resp).effs = cs ∧
    (wsProcessMessages s ms).trace = s.trace ++ ms.map Eff.handlerCall := by
  refine ⟨?_, wsProcessMessages_trace ms s hw⟩
  have hjt : ¬ (jsTruthy (some p) = false) := by simp [jsTruthy, hp]
  have hbad : ¬ (resp.ok = false ∨ resp.body = none) := by simp [hok, hb]
  have hcs : resp.body.getD [] = cs := by rw [hb]; rfl
  have heffs : (sseConnect c (some p) resp).effs =
      .fetchReq p :: cs.map Eff.handlerCall := by
    cases hr : c.shouldRetry <;> simp [sseConnect, hjt, hbad, hr, hcs]
  rw [heffs]
  exact handlerCalls_map cs

/-- Witness for claim C6: a push-stream run delivering A then B, and a duplex
burst delivering hello then world, each arrive in order with no change. -/
theorem chunk_delivery_order_witness :
    handlerCalls (sseConnect (sseFresh "u") (some "p")
      ⟨true, 200, some ["A", "B"]⟩).effs = ["A", "B"] ∧
    (wsProcessMessages ⟨⟨"u", some .OPEN, 0, true, .closed, ⟨3, 1000⟩⟩, [], []⟩
        ["hello", "world"]).trace =
      ([] : List Eff) ++ [Eff.handlerCall "hello", Eff.handlerCall "world"] := by
  have h := chunk_delivery_order (sseFresh "u") "p" ⟨true, 200, some ["A", "B"]⟩
    ["A", "B"] ⟨⟨"u", some .OPEN, 0, true, .closed, ⟨3, 1000⟩⟩, [], []⟩
    ["hello", "world"] rfl rfl rfl rfl
  exact ⟨h.1, h.2⟩

/-- Claim C7 counterexample: close() on a freshly constructed, never-connected
duplex connection leaves shouldRetry at true — the call does not set
shouldRetry to false, contradicting that every close() call disables retries
first. -/
theorem ws_close_shouldretry_counterexample :
    (wsFresh "u").shouldRetry = true ∧
    (wsCloseCall (mkWSSys (wsFresh "u"))).conn.shouldRetry = true :=
  ⟨rfl, rfl⟩

/-- Claim C7 (amended): close() is idempotent and never raises on either
transport (both close functions are total, with no error channel): a second
close changes no state, closing a never-connected instance is safe, and
getHealth afterwards is closed; when a duplex transport handle is open,
retries are disabled and the handle released, and the push-stream close
always disables retries — but a duplex close with no open handle only logs
and leaves shouldRetry as it was. -/
theorem close_idempotent_spec (s : WSSys) (c : SSEConn) :
    wsGetHealth (wsCloseCall s).conn = .closed ∧
    (wsCloseCall (wsCloseCall s)).conn = (wsCloseCall s).conn ∧
    (s.conn.ws.isSome = true →
      (wsCloseCall s).conn.shouldRetry = false ∧ (wsCloseCall s).conn.ws = none) ∧
    (sseClose c).1.shouldRetry = false ∧
    (sseClose c).1.health = .closed ∧
    (sseClose (sseClose c).1).1 = (sseClose c).1 := by
  refine ⟨?_, ?_, ?_, rfl, rfl, rfl⟩ <;>
    cases hw : s.conn.ws <;> simp [wsCloseCall, wsGetHealth, hw]

/-- Witness for the amended claim C7: closing an OPEN duplex connection
disables retries, and closing (twice) a never-connected one leaves health
closed with identical state. -/
theorem close_idempotent_spec_witness :
    (wsCloseCall ⟨⟨"u", some .OPEN, 0, true, .closed, ⟨3, 1000⟩⟩, [], []⟩).conn.shouldRetry
      = false ∧
    wsGetHealth (wsCloseCall (mkWSSys (wsFresh "u"))).conn = .closed := by
  refine ⟨((close_idempotent_spec
      ⟨⟨"u", some .OPEN, 0, true, .closed, ⟨3, 1000⟩⟩, [], []⟩
      (sseFresh "u")).2.2.1 rfl).1,
    (close_idempotent_spec (mkWSSys (wsFresh "u")) (sseFresh "u")).1⟩

/-- Claim C8 counterexample: an unknown kind tag does not fail fast — the
factory returns the push-stream connection, and the returned connection is
usable (getHealth answers and close succeeds on it). -/
theorem new_connection_unknown_kind_counterexample :
    newConnection "bogus" "u" = .sse (sseFresh "u") ∧
    sseGetHealth (sseFresh "u") = .closed ∧
    (sseClose (sseFresh "u")).1.health = .closed :=
  ⟨rfl, rfl, rfl⟩

/-- Claim C8 (amended): newConnection is pure construction — it only builds
the initial state record, its type has no effect channel, so no I/O happens
before connect() — and it dispatches on the tag: the websocket tag yields the
duplex variant, while every other tag (unknown tags are excluded only by the
static type of the parameter, with no runtime check) yields the push-stream
variant. -/
theorem new_connection_dispatch (type url : String) :
    (type = "websocket" → newConnection type url = .ws (wsFresh url)) ∧
    (type ≠ "websocket" → newConnection type url = .sse (sseFresh url)) := by
  constructor
  · intro h
    unfold newConnection
    rw [if_pos (by simp [h])]
  · intro h
    unfold newConnection
    rw [if_neg (by simp [h])]

/-- Witness for the amended claim C8 at the two concrete tags. -/
theorem new_connection_dispatch_witness :
    newConnection "websocket" "u" = .ws (wsFresh "u") ∧
    newConnection "sse" "u" = .sse (sseFresh "u") :=
  ⟨(new_connection_dispatch "websocket" "u").1 rfl,
    (new_connection_dispatch "sse" "u").2 (by decide)⟩
